import Mathlib

/-!
Shallow embedding of the qontinui-runner front-end coordination layer:
the `RecordingControl` component (recording session state machine, status
polling, history, auto-import) and the `App` component (log sinks, the
executor-event listener, clearing, and config-object transformation).
JavaScript objects are modelled as structures over the fields the code
reads; JS `x || d` default-taking is modelled by truthiness helpers;
async handlers are modelled as pure functions of their awaited outcome.
-/

namespace QR

/-- Log severity levels, from the `LogEntry.level` union type. -/
inductive Level where
  | info
  | warning
  | error
  | debug
  | success
deriving DecidableEq, BEq, Repr

/-- Outcome tag of a recording history entry (`"success" | "failed"`). -/
inductive RunStatus where
  | success
  | failed
deriving DecidableEq, Repr

/-- JS `s || d` on an optional string: `undefined` and `""` are falsy. -/
def jsOrStr (x : Option String) (d : String) : String :=
  match x with
  | some s => if s = "" then d else s
  | none => d

/-- JS `n || d` on an optional number: `undefined` and `0` are falsy. -/
def jsOrNat (x : Option Nat) (d : Nat) : Nat :=
  match x with
  | some n => if n = 0 then d else n
  | none => d

/-- JS `q || d` on an optional numeric value: `undefined` and `0` are falsy. -/
def jsOrRat (x : Option ℚ) (d : ℚ) : ℚ :=
  match x with
  | some q => if q = 0 then d else q
  | none => d

/-- JS `b || d` on an optional boolean: `undefined` and `false` are falsy. -/
def jsOrBool (x : Option Bool) (d : Bool) : Bool :=
  match x with
  | some b => if b then true else d
  | none => d

/-- JS truthiness of an optional string. -/
def jsTruthyStr (x : Option String) : Bool :=
  match x with
  | some s => s ≠ ""
  | none => false

/-! ## RecordingControl component (src/unnamed/part_002) -/

/-- `statistics` object of the recording status. -/
structure RecordingStatistics where
  actions_recorded : Nat
  screenshots_captured : Nat
  patterns_tracked : Nat
deriving DecidableEq, Repr

/-- `RecordingStatus` interface. -/
structure RecordingStatus where
  isRecording : Bool
  snapshotDirectory : Option String
  statistics : Option RecordingStatistics
deriving DecidableEq, Repr

/-- `RecordingSettings` interface. -/
structure RecordingSettings where
  baseDir : String
  autoImport : Bool
deriving DecidableEq, Repr

/-- `RecordingHistoryEntry` interface. -/
structure RecordingHistoryEntry where
  runId : String
  timestamp : Nat
  directory : String
  actionCount : Nat
  screenshotCount : Nat
  duration : Nat
  status : RunStatus
deriving DecidableEq, Repr

/-- The component state of `RecordingControl` (the `useState` hooks the
session logic reads and writes; timestamps are in milliseconds). -/
structure RCState where
  recordingStatus : RecordingStatus
  settings : RecordingSettings
  pollingInterval : Option Nat
  recordingStartTime : Option Nat
  history : List RecordingHistoryEntry
  isImporting : Bool
deriving DecidableEq, Repr

/-- Payload of a `recording_started` / `recording_stopped` event. -/
structure StopEventData where
  snapshot_directory : String
  run_id : Option String
deriving DecidableEq, Repr

/-- Output of an event/command handler: the updated component state plus
the observable calls it performed while running (onLog lines, import
requests issued, `clearInterval` calls). -/
structure HandlerOutput where
  state : RCState
  logs : List (Level × String)
  importCalls : List String
  cancelledTimers : List Nat
deriving DecidableEq, Repr

/-- The history entry the `recording_stopped` handler constructs
(`newEntry` in the source). -/
def stopEntry (s : RCState) (d : StopEventData) (stopTime : Nat) : RecordingHistoryEntry :=
  { runId := jsOrStr d.run_id ("recording-" ++ toString stopTime)
    timestamp := stopTime
    directory := d.snapshot_directory
    actionCount := (s.recordingStatus.statistics.map fun st => st.actions_recorded).getD 0
    screenshotCount := (s.recordingStatus.statistics.map fun st => st.screenshots_captured).getD 0
    duration :=
      match s.recordingStartTime with
      | some t0 => (stopTime - t0) / 1000
      | none => 0
    status := RunStatus.success }

/-- The `recording_started` branch of the executor-event listener in
`RecordingControl`. -/
def handleRecordingStarted (s : RCState) (dir : String) (now : Nat) : HandlerOutput :=
  { state :=
      { s with
        recordingStatus := { isRecording := true, snapshotDirectory := some dir, statistics := none }
        recordingStartTime := some now }
    logs := [(Level.success, "Recording started: " ++ dir)]
    importCalls := []
    cancelledTimers := [] }

/-- The `recording_stopped` branch of the executor-event listener in
`RecordingControl`: marks the status not-recording, prepends one history
entry over the first four previous ones, clears the start time, logs, and
issues the auto-import call when enabled.  It performs no timer
cancellation itself. -/
def handleRecordingStopped (s : RCState) (d : StopEventData) (stopTime : Nat) : HandlerOutput :=
  let entry := stopEntry s d stopTime
  { state :=
      { s with
        recordingStatus :=
          { isRecording := false, snapshotDirectory := some d.snapshot_directory, statistics := none }
        history := entry :: s.history.take 4
        recordingStartTime := none }
    logs :=
      [(Level.success,
        "Recording stopped: " ++ d.snapshot_directory ++ " (" ++ toString entry.duration ++ "s, "
          ++ toString entry.actionCount ++ " actions, " ++ toString entry.screenshotCount
          ++ " screenshots)")]
    importCalls := if s.settings.autoImport then [d.snapshot_directory] else []
    cancelledTimers := [] }

/-- Awaited outcome of an `invoke` command (`start_recording`,
`stop_recording`): a resolved result object or a thrown error. -/
inductive CommandResult where
  | ok (snapshot_directory : Option String)
  | failed (error : Option String)
  | exn (msg : String)
deriving DecidableEq, Repr

/-- `handleStartRecording`, as a function of the awaited `invoke` result. -/
def handleStartRecording (s : RCState) (result : CommandResult) (now : Nat) : HandlerOutput :=
  let startLog := (Level.info, "Starting recording with base directory: " ++ s.settings.baseDir)
  match result with
  | CommandResult.ok dir =>
      { state :=
          { s with
            recordingStatus := { isRecording := true, snapshotDirectory := dir, statistics := none }
            recordingStartTime := some now }
        logs := [startLog, (Level.success, "Recording started: " ++ jsOrStr dir "")]
        importCalls := []
        cancelledTimers := [] }
  | CommandResult.failed e =>
      { state := s
        logs := [startLog, (Level.error, "Failed to start recording: " ++ jsOrStr e "Unknown error")]
        importCalls := []
        cancelledTimers := [] }
  | CommandResult.exn m =>
      { state := s
        logs := [startLog, (Level.error, "Failed to start recording: " ++ m)]
        importCalls := []
        cancelledTimers := [] }

/-- `handleStopRecording`, as a function of the awaited `invoke` result.
It does not touch the history or the start time. -/
def handleStopRecording (s : RCState) (result : CommandResult) (_now : Nat) : HandlerOutput :=
  let stopLog := (Level.info, "Stopping recording...")
  match result with
  | CommandResult.ok dir =>
      { state :=
          { s with
            recordingStatus := { isRecording := false, snapshotDirectory := dir, statistics := none } }
        logs := [stopLog, (Level.success, "Recording stopped: " ++ jsOrStr dir "")]
        importCalls := []
        cancelledTimers := [] }
  | CommandResult.failed e =>
      { state := s
        logs := [stopLog, (Level.error, "Failed to stop recording: " ++ jsOrStr e "Unknown error")]
        importCalls := []
        cancelledTimers := [] }
  | CommandResult.exn m =>
      { state := s
        logs := [stopLog, (Level.error, "Failed to stop recording: " ++ m)]
        importCalls := []
        cancelledTimers := [] }

/-- `data` of a `get_recording_status` response. -/
structure PollData where
  is_recording : Option Bool
  snapshot_directory : Option String
  statistics : Option RecordingStatistics
deriving DecidableEq, Repr

/-- Awaited outcome of one `get_recording_status` poll: a resolved
response (with its `success` flag and optional `data`) or a rejection. -/
inductive PollOutcome where
  | response (success : Bool) (data : Option PollData)
  | failure (msg : String)
deriving DecidableEq, Repr

/-- Body of the 2-second poll interval callback: on
`result.success && result.data` it overwrites the recording status with
the response values; in every other case it leaves the state unchanged. -/
def pollTick (s : RCState) (r : PollOutcome) : RCState :=
  match r with
  | PollOutcome.response true (some d) =>
      { s with
        recordingStatus :=
          { isRecording := jsOrBool d.is_recording false
            snapshotDirectory := d.snapshot_directory
            statistics := d.statistics } }
  | PollOutcome.response true none => s
  | PollOutcome.response false _ => s
  | PollOutcome.failure _ => s

/-- Body of the polling `useEffect`, run after a render: starts an
interval when recording without one, and clears the interval when not
recording with one.  Returns the new state and the list of cancelled
timer ids. -/
def pollingEffect (s : RCState) (freshId : Nat) : RCState × List Nat :=
  if s.recordingStatus.isRecording = true ∧ s.pollingInterval = none then
    ({ s with pollingInterval := some freshId }, [])
  else if s.recordingStatus.isRecording = false ∧ s.pollingInterval ≠ none then
    ({ s with pollingInterval := none }, s.pollingInterval.toList)
  else (s, [])

/-- Awaited outcome of the `fetch` to the snapshot-import endpoint. -/
inductive ImportOutcome where
  | ok (run_id : Option String)
  | httpError (text : String)
  | exn (msg : String)
deriving DecidableEq, Repr

/-- `handleImportSnapshot`, as a function of the awaited fetch outcome:
sets `isImporting` (finally back to `false`), logs the attempt and its
result, and touches nothing else in the component state. -/
def handleImportSnapshot (s : RCState) (directory : String) (outcome : ImportOutcome) :
    RCState × List (Level × String) :=
  let logs :=
    (Level.info, "Importing snapshot from: " ++ directory) ::
      match outcome with
      | ImportOutcome.ok runId =>
          [(Level.success, "Snapshot imported successfully: " ++ jsOrStr runId directory)]
      | ImportOutcome.httpError text =>
          [(Level.error, "Failed to import snapshot: " ++ text)]
      | ImportOutcome.exn m =>
          [(Level.error, "Failed to import snapshot: " ++ m)]
  ({ s with isImporting := false }, logs)

/-- One atomic occurrence in the `RecordingControl` component: an engine
event, a completed command invocation, a poll result, or a run of the
polling effect. -/
inductive RCAction where
  | evRecordingStarted (dir : String) (now : Nat)
  | evRecordingStopped (d : StopEventData) (now : Nat)
  | startCmd (result : CommandResult) (now : Nat)
  | stopCmd (result : CommandResult) (now : Nat)
  | poll (r : PollOutcome)
  | effectRun (freshId : Nat)
deriving DecidableEq, Repr

/-- Step function of the `RecordingControl` state machine. -/
def stepRC (s : RCState) (a : RCAction) : RCState :=
  match a with
  | RCAction.evRecordingStarted dir now => (handleRecordingStarted s dir now).state
  | RCAction.evRecordingStopped d now => (handleRecordingStopped s d now).state
  | RCAction.startCmd r now => (handleStartRecording s r now).state
  | RCAction.stopCmd r now => (handleStopRecording s r now).state
  | RCAction.poll r => pollTick s r
  | RCAction.effectRun j => (pollingEffect s j).1

/-- Initial `RecordingControl` state (the `useState` defaults, with the
localStorage fallbacks). -/
def rcInit : RCState :=
  { recordingStatus := { isRecording := false, snapshotDirectory := none, statistics := none }
    settings := { baseDir := "/tmp/qontinui-snapshots", autoImport := false }
    pollingInterval := none
    recordingStartTime := none
    history := []
    isImporting := false }

/-- Whether an action is the `recording_started` confirmation event. -/
def isRecordingStartedEvent : RCAction → Bool
  | RCAction.evRecordingStarted _ _ => true
  | _ => false

/-- Whether an action is a successful `start_recording` command response. -/
def isStartCmdSuccess : RCAction → Bool
  | RCAction.startCmd (CommandResult.ok _) _ => true
  | _ => false

/-- Whether an action is a successful status poll whose data reports
`is_recording` true. -/
def isPollReportsRecording : RCAction → Bool
  | RCAction.poll (PollOutcome.response true (some d)) => jsOrBool d.is_recording false
  | _ => false

/-! ## App component (src/src/App.tsx and src/unnamed/part_001) -/

/-- `LogEntry` interface of the general log sink. -/
structure LogEntry where
  id : String
  timestamp : String
  level : Level
  message : String
deriving DecidableEq, Repr

/-- `ImageRecognitionEntry` interface of the image-recognition sink. -/
structure ImageRecognitionEntry where
  id : String
  timestamp : String
  imagePath : String
  templateSize : String
  screenshotSize : String
  threshold : ℚ
  confidence : ℚ
  found : Bool
  location : Option String
  gap : Option ℚ
  percentOff : Option ℚ
  bestMatchLocation : Option String
  error : Option String
deriving DecidableEq, Repr

/-- `ActionExecutionEntry` interface of the action-execution sink.  The
opaque `config` payload is modelled as an optional string. -/
structure ActionExecutionEntry where
  id : String
  timestamp : String
  actionType : String
  actionId : String
  success : Bool
  attempts : Nat
  config : Option String
  typedText : Option String
  error : Option String
  reason : Option String
deriving DecidableEq, Repr

/-- The `"stopped" | "running"` union of the Python executor status. -/
inductive PythonStatus where
  | stopped
  | running
deriving DecidableEq, Repr

/-- The `"general" | "image" | "actions"` union of the active log tab. -/
inductive LogTab where
  | general
  | image
  | actions
deriving DecidableEq, Repr

/-- Fields of an executor-event `data` payload that the listener reads
(absent keys are `none`; a JS `undefined` string is modelled as absent). -/
structure EventData where
  message : Option String
  level : Option Level
  image_path : Option String
  template_size : Option String
  screenshot_size : Option String
  threshold : Option ℚ
  confidence : Option ℚ
  found : Option Bool
  location : Option String
  gap : Option ℚ
  percent_off : Option ℚ
  best_match_location : Option String
  error : Option String
  action_type : Option String
  action_id : Option String
  success : Option Bool
  attempts : Option Nat
  config : Option String
  typed_text : Option String
  reason : Option String
  target_state : Option String
  process_name : Option String
  process_id : Option String
deriving DecidableEq, Repr

/-- An executor-event payload: `{event, sequence, data}`. -/
structure EventMsg where
  event : String
  sequence : Int
  data : EventData
deriving DecidableEq, Repr

/-- An all-absent `data` payload, to build concrete events from. -/
def noData : EventData :=
  { message := none, level := none, image_path := none, template_size := none
    screenshot_size := none, threshold := none, confidence := none, found := none
    location := none, gap := none, percent_off := none, best_match_location := none
    error := none, action_type := none, action_id := none, success := none
    attempts := none, config := none, typed_text := none, reason := none
    target_state := none, process_name := none, process_id := none }

/-- App component state: the log counter ref, the three sinks, the
executor status and the active tab. -/
structure AppState where
  pythonStatus : PythonStatus
  logIdCounter : Nat
  logs : List LogEntry
  imageRecognitionLogs : List ImageRecognitionEntry
  actionExecutionLogs : List ActionExecutionEntry
  activeLogTab : LogTab
deriving DecidableEq, Repr

/-- The adjacent-duplicate test `addLog` performs against the last entry
of the general sink. -/
def isAdjacentDup (prev : List LogEntry) (timestamp : String) (level : Level)
    (message : String) : Bool :=
  match prev.getLast? with
  | some lastLog =>
      lastLog.timestamp = timestamp && lastLog.message = message && lastLog.level = level
  | none => false

/-- `addLog`: drops the candidate when it duplicates the immediately
preceding entry, otherwise increments the id counter and appends exactly
one entry.  Returns the new counter and the new sink contents. -/
def addLog (counter : Nat) (prev : List LogEntry) (timestamp : String) (level : Level)
    (message : String) : Nat × List LogEntry :=
  if isAdjacentDup prev timestamp level message then
    (counter, prev)
  else
    (counter + 1,
      prev ++ [{ id := toString (counter + 1), timestamp := timestamp, level := level,
                 message := message }])

/-- `addLog` applied inside the App state. -/
def appAddLog (s : AppState) (timestamp : String) (level : Level) (message : String) :
    AppState :=
  let r := addLog s.logIdCounter s.logs timestamp level message
  { s with logIdCounter := r.1, logs := r.2 }

/-- The image-recognition entry the listener constructs from an
`image_recognition` event (with the source's `||` defaults). -/
def imgEntryOf (counter : Nat) (d : EventData) (timestamp : String) : ImageRecognitionEntry :=
  { id := "img-" ++ toString counter
    timestamp := timestamp
    imagePath := jsOrStr d.image_path ""
    templateSize := jsOrStr d.template_size ""
    screenshotSize := jsOrStr d.screenshot_size ""
    threshold := jsOrRat d.threshold 0
    confidence := jsOrRat d.confidence 0
    found := jsOrBool d.found false
    location := d.location
    gap := d.gap
    percentOff := d.percent_off
    bestMatchLocation := d.best_match_location
    error := d.error }

/-- The action-execution entry the listener constructs from an
`action_execution` event (with the source's `||` defaults). -/
def actEntryOf (counter : Nat) (d : EventData) (timestamp : String) : ActionExecutionEntry :=
  { id := "action-" ++ toString counter
    timestamp := timestamp
    actionType := jsOrStr d.action_type "UNKNOWN"
    actionId := jsOrStr d.action_id ""
    success := jsOrBool d.success false
    attempts := jsOrNat d.attempts 1
    config := d.config
    typedText := d.typed_text
    error := d.error
    reason := d.reason }

/-- The debug line the listener writes to the console for every event,
its only use of the sequence number. -/
def eventConsoleLine (ev : EventMsg) : String :=
  "Event received: " ++ ev.event ++ " Sequence: " ++ toString ev.sequence

/-- The action-lifecycle log line (`action_started` / `action_completed`
branches). -/
def actionEventLine (verb : String) (d : EventData) : String :=
  let actionType := jsOrStr d.action_type "Unknown"
  if actionType = "GO_TO_STATE" ∧ jsTruthyStr d.target_state then
    "Action " ++ verb ++ ": " ++ actionType ++ " → " ++ (d.target_state.getD "")
  else
    "Action " ++ verb ++ ": " ++ actionType

/-- Body of the `executor-event` listener in App: routes one event to the
sinks by its name.  The timestamp the branches compute from the clock is
passed in.  No branch reads `ev.sequence`. -/
def processEvent (s : AppState) (ev : EventMsg) (timestamp : String) : AppState :=
  let s :=
    if ev.event = "ready" then
      appAddLog { s with pythonStatus := PythonStatus.running } timestamp Level.info
        (jsOrStr ev.data.message "Python executor ready")
    else s
  let s :=
    if ev.event = "config_loaded" ∨ ev.event = "execution_started"
        ∨ ev.event = "execution_completed" then
      appAddLog s timestamp Level.info (jsOrStr ev.data.message ("Event: " ++ ev.event))
    else s
  let s :=
    if ev.event = "error" then
      appAddLog s timestamp Level.error (jsOrStr ev.data.message "Unknown error")
    else s
  let s :=
    if ev.event = "log" then
      appAddLog s timestamp (ev.data.level.getD Level.info) (ev.data.message.getD "")
    else s
  let s :=
    if ev.event = "image_recognition" then
      { s with
        logIdCounter := s.logIdCounter + 1
        imageRecognitionLogs :=
          s.imageRecognitionLogs ++ [imgEntryOf (s.logIdCounter + 1) ev.data timestamp] }
    else s
  let s :=
    if ev.event = "action_execution" then
      { s with
        logIdCounter := s.logIdCounter + 1
        actionExecutionLogs :=
          s.actionExecutionLogs ++ [actEntryOf (s.logIdCounter + 1) ev.data timestamp] }
    else s
  let s :=
    if ev.event = "action_started" then
      appAddLog s timestamp Level.debug (actionEventLine "started" ev.data)
    else s
  let s :=
    if ev.event = "action_completed" then
      appAddLog s timestamp Level.debug (actionEventLine "completed" ev.data)
    else s
  let s :=
    if ev.event = "process_started" then
      appAddLog s timestamp Level.info
        ("Process started: " ++ jsOrStr ev.data.process_name (jsOrStr ev.data.process_id "Unknown"))
    else s
  let s :=
    if ev.event = "process_completed" then
      appAddLog s timestamp Level.info
        ("Process completed: "
          ++ jsOrStr ev.data.process_name (jsOrStr ev.data.process_id "Unknown"))
    else s
  s

/-- `clearLogs`: empties the sink of the active tab only. -/
def clearLogs (s : AppState) : AppState :=
  if s.activeLogTab = LogTab.general then { s with logs := [] }
  else if s.activeLogTab = LogTab.image then { s with imageRecognitionLogs := [] }
  else if s.activeLogTab = LogTab.actions then { s with actionExecutionLogs := [] }
  else s

/-- `clearAllLogs`: empties all three sinks. -/
def clearAllLogs (s : AppState) : AppState :=
  { s with logs := [], imageRecognitionLogs := [], actionExecutionLogs := [] }

/-- Initial App state (the `useState` defaults). -/
def appInit : AppState :=
  { pythonStatus := PythonStatus.stopped
    logIdCounter := 0
    logs := []
    imageRecognitionLogs := []
    actionExecutionLogs := []
    activeLogTab := LogTab.general }

/-- Content comparison of two image-recognition entries: every field but
the generated `id`. -/
def imgContentEq (a b : ImageRecognitionEntry) : Bool :=
  a.timestamp = b.timestamp && a.imagePath = b.imagePath && a.templateSize = b.templateSize
    && a.screenshotSize = b.screenshotSize && a.threshold = b.threshold
    && a.confidence = b.confidence && a.found = b.found && a.location = b.location
    && a.gap = b.gap && a.percentOff = b.percentOff
    && a.bestMatchLocation = b.bestMatchLocation && a.error = b.error

/-- Content comparison of two action-execution entries: every field but
the generated `id`. -/
def actContentEq (a b : ActionExecutionEntry) : Bool :=
  a.timestamp = b.timestamp && a.actionType = b.actionType && a.actionId = b.actionId
    && a.success = b.success && a.attempts = b.attempts && a.config = b.config
    && a.typedText = b.typedText && a.error = b.error && a.reason = b.reason

/-! ## Action-config transformation (`replaceImageIdsWithNames`) -/

/-- The `target` sub-object of an action config: the fields the transform
touches plus an opaque remainder preserved by the deep clone. -/
structure ActionTarget where
  imageId : Option String
  threshold : Option ℚ
  rest : List (String × String)
deriving DecidableEq, Repr

/-- An action-config object: the fields the transform touches plus an
opaque remainder preserved by the deep clone. -/
structure ActionConfigObj where
  image : Option String
  imageId : Option String
  target : Option ActionTarget
  similarity : Option ℚ
  rest : List (String × String)
deriving DecidableEq, Repr

/-- The `if (replaced.image)` block: a truthy `image` id is replaced
through the name lookup. -/
def replaceImageField (getImageName : String → String) (o : ActionConfigObj) : ActionConfigObj :=
  match o.image with
  | some s => if s ≠ "" then { o with image := some (getImageName s) } else o
  | none => o

/-- The `if (replaced.imageId)` block. -/
def replaceImageIdField (getImageName : String → String) (o : ActionConfigObj) :
    ActionConfigObj :=
  match o.imageId with
  | some s => if s ≠ "" then { o with imageId := some (getImageName s) } else o
  | none => o

/-- The `if (replaced.target?.imageId)` block. -/
def replaceTargetImageIdField (getImageName : String → String) (o : ActionConfigObj) :
    ActionConfigObj :=
  match o.target with
  | some t =>
      match t.imageId with
      | some s =>
          if s ≠ "" then
            { o with target := some { t with imageId := some (getImageName s) } }
          else o
      | none => o
  | none => o

/-- The `finalSimilarity` computation: start from the 0.9 global default,
override with `target.threshold` when defined, override with the action
`similarity` when defined. -/
def finalSimilarity (o : ActionConfigObj) : ℚ :=
  match o.similarity with
  | some q => q
  | none =>
      match o.target with
      | some t =>
          match t.threshold with
          | some q => q
          | none => 9 / 10
      | none => 9 / 10

/-- The `delete replaced.target.threshold` block. -/
def removeTargetThreshold (o : ActionConfigObj) : ActionConfigObj :=
  match o.target with
  | some t => { o with target := some { t with threshold := none } }
  | none => o

/-- `replaceImageIdsWithNames`: works on a deep clone of the input,
replaces truthy image ids through the name lookup, computes the final
similarity, writes it to `similarity`, and deletes `target.threshold`. -/
def replaceImageIdsWithNames (getImageName : String → String) (obj : ActionConfigObj) :
    ActionConfigObj :=
  let replaced := obj
  let replaced := replaceImageField getImageName replaced
  let replaced := replaceImageIdField getImageName replaced
  let replaced := replaceTargetImageIdField getImageName replaced
  let replaced := { replaced with similarity := some (finalSimilarity replaced) }
  removeTargetThreshold replaced

/-! ## Concrete fixtures -/

/-- A concrete recording history entry. -/
def hEntry (k : Nat) : RecordingHistoryEntry :=
  { runId := "run-" ++ toString k, timestamp := k * 1000, directory := "/tmp/r" ++ toString k
    actionCount := k, screenshotCount := k, duration := k, status := RunStatus.success }

/-- A state whose history already holds five entries. -/
def rc5 : RCState :=
  { rcInit with history := [hEntry 1, hEntry 2, hEntry 3, hEntry 4, hEntry 5] }

/-- A concrete `recording_stopped` payload. -/
def sd0 : StopEventData := { snapshot_directory := "/tmp/run-new", run_id := some "run-6" }

/-- A state mid-recording with an active poll interval. -/
def rcRecording : RCState :=
  { recordingStatus :=
      { isRecording := true
        snapshotDirectory := some "/tmp/run1"
        statistics :=
          some { actions_recorded := 3, screenshots_captured := 2, patterns_tracked := 1 } }
    settings := { baseDir := "/tmp/qontinui-snapshots", autoImport := false }
    pollingInterval := some 7
    recordingStartTime := some 1000
    history := []
    isImporting := false }

/-- `rcInit` with the auto-import option enabled. -/
def rcAuto : RCState :=
  { rcInit with settings := { baseDir := "/tmp/qontinui-snapshots", autoImport := true } }

/-- A concrete general-sink entry. -/
def logA : LogEntry := { id := "1", timestamp := "10:00:00", level := Level.info, message := "hello" }

/-- A concrete `image_recognition` event. -/
def evImg : EventMsg :=
  { event := "image_recognition", sequence := 1
    data := { noData with
              image_path := some "img.png"
              template_size := some "10x10"
              screenshot_size := some "100x100"
              threshold := some 1
              confidence := some 1
              found := some true } }

/-- A concrete `action_execution` event. -/
def evAct : EventMsg :=
  { event := "action_execution", sequence := 2
    data := { noData with
              action_type := some "CLICK"
              action_id := some "a1"
              success := some true
              attempts := some 2 } }

/-- The App state after the same `image_recognition` event twice. -/
def appImg2 : AppState := processEvent (processEvent appInit evImg "10:00:00") evImg "10:00:00"

/-- The App state after the same `action_execution` event twice. -/
def appAct2 : AppState := processEvent (processEvent appInit evAct "10:00:00") evAct "10:00:00"

/-- A concrete `log` event with sequence number 5. -/
def evLog5 : EventMsg :=
  { event := "log", sequence := 5
    data := { noData with message := some "first", level := some Level.info } }

/-- A concrete `log` event with the regressed sequence number 3. -/
def evLog3 : EventMsg :=
  { event := "log", sequence := 3
    data := { noData with message := some "second", level := some Level.info } }

/-- An App state with one entry in each sink, general tab active. -/
def appPop : AppState :=
  { appInit with
    logs := [logA]
    imageRecognitionLogs := [imgEntryOf 1 evImg.data "10:00:00"]
    actionExecutionLogs := [actEntryOf 1 evAct.data "10:00:00"] }

/-! ## Helper lemmas -/

/-- The history written by one `recording_stopped` step. -/
theorem stepStop_history (s : RCState) (d : StopEventData) (now : Nat) :
    (stepRC s (RCAction.evRecordingStopped d now)).history
      = stopEntry s d now :: s.history.take 4 := rfl

/-- One `recording_stopped` step leaves at most five history entries. -/
theorem stepStop_length_le (s : RCState) (d : StopEventData) (now : Nat) :
    (stepRC s (RCAction.evRecordingStopped d now)).history.length ≤ 5 := by
  rw [stepStop_history]
  simp only [List.length_cons, List.length_take]
  omega

/-- Folding `recording_stopped` events preserves the five-entry bound. -/
theorem histFold_le (events : List (StopEventData × Nat)) (s : RCState)
    (h5 : s.history.length ≤ 5) :
    ((events.foldl (fun st p => stepRC st (RCAction.evRecordingStopped p.1 p.2)) s).history.length
      ≤ 5) := by
  induction events generalizing s with
  | nil => exact h5
  | cons p rest ih => exact ih _ (stepStop_length_le s p.1 p.2)

/-- The polling effect never changes the recording status. -/
theorem pollingEffect_status (s : RCState) (j : Nat) :
    (pollingEffect s j).1.recordingStatus = s.recordingStatus := by
  unfold pollingEffect
  split_ifs <;> rfl

/-- Replacing the `image` field touches nothing else. -/
theorem replaceImageField_spec (f : String → String) (o : ActionConfigObj) :
    (replaceImageField f o).imageId = o.imageId
  ∧ (replaceImageField f o).target = o.target
  ∧ (replaceImageField f o).similarity = o.similarity
  ∧ (replaceImageField f o).rest = o.rest := by
  rcases o with ⟨img, iid, tgt, sim, rest⟩
  cases img with
  | none => exact ⟨rfl, rfl, rfl, rfl⟩
  | some a => by_cases h : a = "" <;> simp [replaceImageField, h]

/-- Replacing the `imageId` field touches nothing else. -/
theorem replaceImageIdField_spec (f : String → String) (o : ActionConfigObj) :
    (replaceImageIdField f o).image = o.image
  ∧ (replaceImageIdField f o).target = o.target
  ∧ (replaceImageIdField f o).similarity = o.similarity
  ∧ (replaceImageIdField f o).rest = o.rest := by
  rcases o with ⟨img, iid, tgt, sim, rest⟩
  cases iid with
  | none => exact ⟨rfl, rfl, rfl, rfl⟩
  | some a => by_cases h : a = "" <;> simp [replaceImageIdField, h]

/-- Replacing `target.imageId` keeps the similarity, the remainder, the
target's threshold and the target's remainder. -/
theorem replaceTargetImageIdField_spec (f : String → String) (o : ActionConfigObj) :
    (replaceTargetImageIdField f o).similarity = o.similarity
  ∧ (replaceTargetImageIdField f o).rest = o.rest
  ∧ ((replaceTargetImageIdField f o).target.bind fun t => t.threshold)
      = (o.target.bind fun t => t.threshold)
  ∧ ((replaceTargetImageIdField f o).target.map fun t => t.rest)
      = o.target.map fun t => t.rest := by
  rcases o with ⟨img, iid, tgt, sim, rest⟩
  cases tgt with
  | none => exact ⟨rfl, rfl, rfl, rfl⟩
  | some t =>
      rcases t with ⟨ti, th, tr⟩
      cases ti with
      | none => exact ⟨rfl, rfl, rfl, rfl⟩
      | some a => by_cases h : a = "" <;> simp [replaceTargetImageIdField, h]

/-- The final similarity follows the precedence action similarity over
target threshold over the 0.9 default. -/
theorem finalSimilarity_spec (o : ActionConfigObj) :
    finalSimilarity o = o.similarity.getD ((o.target.bind fun t => t.threshold).getD (9 / 10)) := by
  rcases o with ⟨img, iid, tgt, sim, rest⟩
  cases sim with
  | some q => rfl
  | none =>
      cases tgt with
      | none => rfl
      | some t =>
          rcases t with ⟨ti, th, tr⟩
          cases th <;> rfl

/-- Deleting `target.threshold` leaves the rest of the object alone and
leaves no threshold behind. -/
theorem removeTargetThreshold_spec (o : ActionConfigObj) :
    (removeTargetThreshold o).similarity = o.similarity
  ∧ (removeTargetThreshold o).rest = o.rest
  ∧ ((removeTargetThreshold o).target.bind fun t => t.threshold) = none
  ∧ ((removeTargetThreshold o).target.map fun t => t.rest) = o.target.map fun t => t.rest := by
  rcases o with ⟨img, iid, tgt, sim, rest⟩
  cases tgt with
  | none => exact ⟨rfl, rfl, rfl, rfl⟩
  | some t => exact ⟨rfl, rfl, rfl, rfl⟩

/-! ## Claim theorems -/

/-- C1: over every sequence of `recording_stopped` events processed by the
RecordingControl listener, the history never holds more than 5 entries,
and when an entry is added while 5 are present, the last entry of the
newest-first list (the oldest) is the one evicted. -/
theorem C1_history_bounded (s : RCState) (events : List (StopEventData × Nat))
    (h5 : s.history.length ≤ 5) :
    ((events.foldl (fun st p => stepRC st (RCAction.evRecordingStopped p.1 p.2)) s).history.length
      ≤ 5)
  ∧ (∀ d now, s.history.length = 5 →
      (stepRC s (RCAction.evRecordingStopped d now)).history
        = stopEntry s d now :: s.history.dropLast) := by
  refine ⟨histFold_le events s h5, ?_⟩
  intro d now h
  rw [stepStop_history, List.dropLast_eq_take, h]

/-- C1 witness: inserting a sixth entry into a full five-entry history
evicts exactly the oldest entry. -/
theorem C1_history_bounded_witness :
    (stepRC rc5 (RCAction.evRecordingStopped sd0 9000)).history
      = stopEntry rc5 sd0 9000 :: rc5.history.dropLast :=
  (C1_history_bounded rc5 [] (by decide)).2 sd0 9000 (by decide)

/-- C2 counterexample: with an active poll interval (id 7) and a session
mid-recording, the `recording_stopped` handler returns without having
cancelled any timer, and the interval is still registered in the state it
returns; the cancellation is not performed before the handler returns. -/
theorem C2_counterexample :
    rcRecording.recordingStatus.isRecording = true
  ∧ rcRecording.pollingInterval = some 7
  ∧ (handleRecordingStopped rcRecording sd0 9000).cancelledTimers = []
  ∧ (handleRecordingStopped rcRecording sd0 9000).state.pollingInterval = some 7 :=
  ⟨rfl, rfl, rfl, rfl⟩

/-- C2 amended: a `recording_stopped` event received while recording
appends exactly one history entry and marks the session stopped, but the
handler itself cancels no timer; the poll interval is cancelled by the
polling effect on the subsequent render, once `isRecording` is false. -/
theorem C2_stop_appends_once_effect_cancels (s : RCState) (d : StopEventData) (now fresh : Nat)
    (hrec : s.recordingStatus.isRecording = true) :
    (handleRecordingStopped s d now).state.history = stopEntry s d now :: s.history.take 4
  ∧ (handleRecordingStopped s d now).state.history.length = Nat.min 4 s.history.length + 1
  ∧ (handleRecordingStopped s d now).state.recordingStatus.isRecording = false
  ∧ (handleRecordingStopped s d now).cancelledTimers = []
  ∧ (handleRecordingStopped s d now).state.pollingInterval = s.pollingInterval
  ∧ (pollingEffect (handleRecordingStopped s d now).state fresh).2 = s.pollingInterval.toList
  ∧ (pollingEffect (handleRecordingStopped s d now).state fresh).1.pollingInterval = none := by
  refine ⟨rfl, ?_, rfl, rfl, rfl, ?_, ?_⟩
  · simp [handleRecordingStopped, List.length_take]
  · cases h : s.pollingInterval <;> simp [handleRecordingStopped, pollingEffect, h]
  · cases h : s.pollingInterval <;> simp [handleRecordingStopped, pollingEffect, h]

/-- C2 witness: the amended statement evaluated at a concrete recording
state with poll interval 7. -/
theorem C2_stop_appends_once_effect_cancels_witness :
    (handleRecordingStopped rcRecording sd0 9000).state.history
      = stopEntry rcRecording sd0 9000 :: rcRecording.history.take 4
  ∧ (handleRecordingStopped rcRecording sd0 9000).state.history.length
      = Nat.min 4 rcRecording.history.length + 1
  ∧ (handleRecordingStopped rcRecording sd0 9000).state.recordingStatus.isRecording = false
  ∧ (handleRecordingStopped rcRecording sd0 9000).cancelledTimers = []
  ∧ (handleRecordingStopped rcRecording sd0 9000).state.pollingInterval
      = rcRecording.pollingInterval
  ∧ (pollingEffect (handleRecordingStopped rcRecording sd0 9000).state 11).2
      = rcRecording.pollingInterval.toList
  ∧ (pollingEffect (handleRecordingStopped rcRecording sd0 9000).state 11).1.pollingInterval
      = none :=
  C2_stop_appends_once_effect_cancels rcRecording sd0 9000 11 rfl

/-- C3: a successful status poll overwrites the local recording status
(state and statistics) with the response values; a response reporting
`is_recording` false leaves the session not recording and the next run of
the polling effect cancels the interval; a failed poll, a response with
`success` false, or a response without data leaves the state unchanged. -/
theorem C3_poll_reconciliation (s : RCState) (d : PollData) (j : Nat) :
    (pollTick s (PollOutcome.response true (some d))).recordingStatus
      = { isRecording := jsOrBool d.is_recording false
          snapshotDirectory := d.snapshot_directory
          statistics := d.statistics }
  ∧ (pollTick s (PollOutcome.response true (some d))).history = s.history
  ∧ (∀ m, pollTick s (PollOutcome.failure m) = s)
  ∧ (∀ b od, b = false ∨ od = none → pollTick s (PollOutcome.response b od) = s)
  ∧ (jsOrBool d.is_recording false = false →
      (pollTick s (PollOutcome.response true (some d))).recordingStatus.isRecording = false
    ∧ (pollingEffect (pollTick s (PollOutcome.response true (some d))) j).2
        = s.pollingInterval.toList
    ∧ (pollingEffect (pollTick s (PollOutcome.response true (some d))) j).1.pollingInterval
        = none) := by
  refine ⟨rfl, rfl, fun m => rfl, ?_, ?_⟩
  · intro b od h
    cases b <;> cases od <;> first | rfl | (rcases h with h | h <;> simp at h)
  · intro h
    refine ⟨by simp [pollTick, h], ?_, ?_⟩
    · cases hp : s.pollingInterval <;> simp [pollTick, pollingEffect, h, hp]
    · cases hp : s.pollingInterval <;> simp [pollTick, pollingEffect, h, hp]

/-- C3 witness: a poll answering `is_recording` false while recording
with interval 7 overwrites the status, and the following effect run
cancels timer 7. -/
theorem C3_poll_reconciliation_witness :
    (pollTick rcRecording
        (PollOutcome.response true
          (some { is_recording := some false, snapshot_directory := some "/tmp/run1",
                  statistics := none }))).recordingStatus
      = { isRecording := false, snapshotDirectory := some "/tmp/run1", statistics := none }
  ∧ (pollingEffect
        (pollTick rcRecording
          (PollOutcome.response true
            (some { is_recording := some false, snapshot_directory := some "/tmp/run1",
                    statistics := none }))) 11).2 = [7] := by
  have h := C3_poll_reconciliation rcRecording
    { is_recording := some false, snapshot_directory := some "/tmp/run1", statistics := none } 11
  exact ⟨h.1, h.2.2.2.2 rfl |>.2.1⟩

/-- C4 counterexample: from the idle initial state, a successful
`start_recording` command response — which is not the `recording_started`
confirmation event — already flips the session to recording. -/
theorem C4_counterexample :
    rcInit.recordingStatus.isRecording = false
  ∧ isRecordingStartedEvent (RCAction.startCmd (CommandResult.ok (some "/tmp/run1")) 1000) = false
  ∧ (stepRC rcInit
        (RCAction.startCmd (CommandResult.ok (some "/tmp/run1")) 1000)).recordingStatus.isRecording
      = true :=
  ⟨rfl, rfl, rfl⟩

/-- C4 amended: the session becomes recording only through an engine
acknowledgement — the `recording_started` event, a successful
`start_recording` command response, or a successful status poll whose
data reports `is_recording` true; no other action can set it. -/
theorem C4_recording_only_on_ack (s : RCState) (a : RCAction)
    (h : (stepRC s a).recordingStatus.isRecording = true) :
    s.recordingStatus.isRecording = true
  ∨ isRecordingStartedEvent a = true
  ∨ isStartCmdSuccess a = true
  ∨ isPollReportsRecording a = true := by
  cases a with
  | evRecordingStarted dir now => exact Or.inr (Or.inl rfl)
  | evRecordingStopped d now => simp [stepRC, handleRecordingStopped] at h
  | startCmd r now =>
      cases r with
      | ok dir => exact Or.inr (Or.inr (Or.inl rfl))
      | failed e => exact Or.inl h
      | exn m => exact Or.inl h
  | stopCmd r now =>
      cases r with
      | ok dir => simp [stepRC, handleStopRecording] at h
      | failed e => exact Or.inl h
      | exn m => exact Or.inl h
  | poll r =>
      cases r with
      | response b od =>
          cases b with
          | true =>
              cases od with
              | none => exact Or.inl h
              | some d =>
                  refine Or.inr (Or.inr (Or.inr ?_))
                  simpa [stepRC, pollTick, isPollReportsRecording] using h
          | false => cases od <;> exact Or.inl h
      | failure m => exact Or.inl h
  | effectRun j => exact Or.inl (by rw [← pollingEffect_status s j]; exact h)

/-- C4 witness: the amended statement evaluated at the idle state and the
`recording_started` confirmation event. -/
theorem C4_recording_only_on_ack_witness :
    rcInit.recordingStatus.isRecording = true
  ∨ isRecordingStartedEvent (RCAction.evRecordingStarted "/tmp/run1" 1000) = true
  ∨ isStartCmdSuccess (RCAction.evRecordingStarted "/tmp/run1" 1000) = true
  ∨ isPollReportsRecording (RCAction.evRecordingStarted "/tmp/run1" 1000) = true :=
  C4_recording_only_on_ack rcInit (RCAction.evRecordingStarted "/tmp/run1" 1000) rfl

/-- C5: `addLog` leaves the general sink unchanged exactly when the
candidate's (timestamp, severity, message) triple equals that of the
immediately preceding entry; otherwise it appends exactly one entry at
the end — so non-adjacent repeats are retained, since only the last
entry is compared. -/
theorem C5_addLog_dedup (counter : Nat) (prev : List LogEntry) (ts : String) (lvl : Level)
    (msg : String) :
    (isAdjacentDup prev ts lvl msg = true → addLog counter prev ts lvl msg = (counter, prev))
  ∧ (isAdjacentDup prev ts lvl msg = false →
      addLog counter prev ts lvl msg
        = (counter + 1,
            prev ++ [{ id := toString (counter + 1), timestamp := ts, level := lvl,
                       message := msg }])) := by
  constructor <;> intro h <;> simp [addLog, h]

/-- C5 witness: a candidate duplicating the last entry is dropped, and
the same candidate against a non-matching last entry is appended. -/
theorem C5_addLog_dedup_witness :
    addLog 1 [logA] "10:00:00" Level.info "hello" = (1, [logA])
  ∧ addLog 1 [logA] "10:00:01" Level.info "hello"
      = (2, [logA, { id := "2", timestamp := "10:00:01", level := Level.info,
                     message := "hello" }]) :=
  ⟨(C5_addLog_dedup 1 [logA] "10:00:00" Level.info "hello").1 (by decide),
   (C5_addLog_dedup 1 [logA] "10:00:01" Level.info "hello").2 (by decide)⟩

/-- C6 counterexample: processing the same `image_recognition` event
twice leaves two entries of identical content in the image-recognition
sink, and likewise for the action-execution sink — neither diagnostic
sink drops an entry whose content equals the immediately preceding one. -/
theorem C6_counterexample :
    appImg2.imageRecognitionLogs
      = [imgEntryOf 1 evImg.data "10:00:00", imgEntryOf 2 evImg.data "10:00:00"]
  ∧ imgContentEq (imgEntryOf 1 evImg.data "10:00:00") (imgEntryOf 2 evImg.data "10:00:00") = true
  ∧ appAct2.actionExecutionLogs
      = [actEntryOf 1 evAct.data "10:00:00", actEntryOf 2 evAct.data "10:00:00"]
  ∧ actContentEq (actEntryOf 1 evAct.data "10:00:00") (actEntryOf 2 evAct.data "10:00:00")
      = true := by
  refine ⟨?_, ?_, ?_, ?_⟩ <;> decide

/-- C6 amended: only the general log sink deduplicates; the
image-recognition and action-execution sinks append one entry for every
event of their category unconditionally, leaving the other sinks
unchanged. -/
theorem C6_diagnostic_sinks_append_unconditionally (s : AppState) (ev : EventMsg) (ts : String) :
    (ev.event = "image_recognition" →
      (processEvent s ev ts).imageRecognitionLogs
        = s.imageRecognitionLogs ++ [imgEntryOf (s.logIdCounter + 1) ev.data ts]
    ∧ (processEvent s ev ts).actionExecutionLogs = s.actionExecutionLogs
    ∧ (processEvent s ev ts).logs = s.logs)
  ∧ (ev.event = "action_execution" →
      (processEvent s ev ts).actionExecutionLogs
        = s.actionExecutionLogs ++ [actEntryOf (s.logIdCounter + 1) ev.data ts]
    ∧ (processEvent s ev ts).imageRecognitionLogs = s.imageRecognitionLogs
    ∧ (processEvent s ev ts).logs = s.logs) := by
  constructor <;> intro h <;> simp [processEvent, h]

/-- C6 amended witness: the amended statement evaluated on a concrete
image-recognition event against the initial state. -/
theorem C6_diagnostic_sinks_append_unconditionally_witness :
    (processEvent appInit evImg "10:00:00").imageRecognitionLogs
      = appInit.imageRecognitionLogs ++ [imgEntryOf (appInit.logIdCounter + 1) evImg.data "10:00:00"]
  ∧ (processEvent appInit evImg "10:00:00").actionExecutionLogs = appInit.actionExecutionLogs
  ∧ (processEvent appInit evImg "10:00:00").logs = appInit.logs :=
  (C6_diagnostic_sinks_append_unconditionally appInit evImg "10:00:00").1 rfl

/-- C7 counterexample: a failed import is logged with error severity, not
warning severity — no warning-severity entry is emitted at all. -/
theorem C7_counterexample :
    (handleImportSnapshot rcInit "/tmp/run1" (ImportOutcome.httpError "boom")).2
      = [(Level.info, "Importing snapshot from: /tmp/run1"),
         (Level.error, "Failed to import snapshot: boom")]
  ∧ ((handleImportSnapshot rcInit "/tmp/run1" (ImportOutcome.httpError "boom")).2.all
      fun p => !(p.1 == Level.warning)) = true := by
  refine ⟨?_, ?_⟩ <;> decide

/-- C7 amended: with auto-import enabled, each `recording_stopped`
transition issues the import call exactly once; an import failure is
reported as an error-severity log entry only and never changes the
recording status or the history. -/
theorem C7_auto_import_once_error_only (s : RCState) (d : StopEventData) (now : Nat)
    (dir : String) (oc : ImportOutcome) (hauto : s.settings.autoImport = true) :
    (handleRecordingStopped s d now).importCalls = [d.snapshot_directory]
  ∧ (handleImportSnapshot s dir oc).1.recordingStatus = s.recordingStatus
  ∧ (handleImportSnapshot s dir oc).1.history = s.history
  ∧ (∀ t, oc = ImportOutcome.httpError t →
      (handleImportSnapshot s dir oc).2
        = [(Level.info, "Importing snapshot from: " ++ dir),
           (Level.error, "Failed to import snapshot: " ++ t)])
  ∧ (∀ m, oc = ImportOutcome.exn m →
      (handleImportSnapshot s dir oc).2
        = [(Level.info, "Importing snapshot from: " ++ dir),
           (Level.error, "Failed to import snapshot: " ++ m)]) := by
  refine ⟨by simp [handleRecordingStopped, hauto], rfl, rfl, ?_, ?_⟩ <;>
    (intro t ht; subst ht; rfl)

/-- C7 witness: the amended statement at a concrete auto-import state and
a concrete failing import. -/
theorem C7_auto_import_once_error_only_witness :
    (handleRecordingStopped rcAuto sd0 9000).importCalls = [sd0.snapshot_directory]
  ∧ (handleImportSnapshot rcAuto "/tmp/x" (ImportOutcome.httpError "boom")).1.recordingStatus
      = rcAuto.recordingStatus
  ∧ (handleImportSnapshot rcAuto "/tmp/x" (ImportOutcome.httpError "boom")).2
      = [(Level.info, "Importing snapshot from: " ++ "/tmp/x"),
         (Level.error, "Failed to import snapshot: " ++ "boom")] := by
  have h := C7_auto_import_once_error_only rcAuto sd0 9000 "/tmp/x"
    (ImportOutcome.httpError "boom") rfl
  exact ⟨h.1, h.2.1, h.2.2.2.1 "boom" rfl⟩

/-- C8 counterexample: an event whose sequence number regresses (3 after
5) is still applied — its log entry lands in the general sink. -/
theorem C8_counterexample :
    evLog3.sequence < evLog5.sequence
  ∧ ((processEvent (processEvent appInit evLog5 "10:00:01") evLog3 "10:00:02").logs.map
      fun e => e.message) = ["first", "second"] := by
  refine ⟨?_, ?_⟩ <;> decide

/-- C8 amended: the listener only writes the sequence number into its
debug console line; the state it produces is completely independent of
the sequence number, so no monotonicity check is performed and regressed
events are applied like any other. -/
theorem C8_sequence_ignored (s : AppState) (name : String) (n m : Int) (d : EventData)
    (ts : String) :
    processEvent s { event := name, sequence := n, data := d } ts
      = processEvent s { event := name, sequence := m, data := d } ts
  ∧ eventConsoleLine { event := name, sequence := n, data := d }
      = "Event received: " ++ name ++ " Sequence: " ++ toString n :=
  ⟨rfl, rfl⟩

/-- C9: `clearLogs` empties exactly the sink of the active tab and leaves
the other two unchanged; `clearAllLogs` empties all three. -/
theorem C9_clear_frame (s : AppState) :
    (clearAllLogs s).logs = []
  ∧ (clearAllLogs s).imageRecognitionLogs = []
  ∧ (clearAllLogs s).actionExecutionLogs = []
  ∧ (s.activeLogTab = LogTab.general →
      (clearLogs s).logs = []
    ∧ (clearLogs s).imageRecognitionLogs = s.imageRecognitionLogs
    ∧ (clearLogs s).actionExecutionLogs = s.actionExecutionLogs)
  ∧ (s.activeLogTab = LogTab.image →
      (clearLogs s).imageRecognitionLogs = []
    ∧ (clearLogs s).logs = s.logs
    ∧ (clearLogs s).actionExecutionLogs = s.actionExecutionLogs)
  ∧ (s.activeLogTab = LogTab.actions →
      (clearLogs s).actionExecutionLogs = []
    ∧ (clearLogs s).logs = s.logs
    ∧ (clearLogs s).imageRecognitionLogs = s.imageRecognitionLogs) := by
  refine ⟨rfl, rfl, rfl, ?_, ?_, ?_⟩ <;> intro h <;> simp [clearLogs, h]

/-- C9 witness: clearing on the general tab empties only the general sink
of a state with one entry in each sink. -/
theorem C9_clear_frame_witness :
    (clearLogs appPop).logs = []
  ∧ (clearLogs appPop).imageRecognitionLogs = appPop.imageRecognitionLogs
  ∧ (clearLogs appPop).actionExecutionLogs = appPop.actionExecutionLogs :=
  (C9_clear_frame appPop).2.2.2.1 rfl

/-- C10: `replaceImageIdsWithNames` returns an object whose `similarity`
is the input's own similarity when defined, else the input's
`target.threshold` when defined, else 0.9; the returned `target` carries
no `threshold` any more; and the untouched remainder of the object (and
of its target) is preserved, the input itself being transformed only
through a deep clone. -/
theorem C10_similarity_precedence (f : String → String) (obj : ActionConfigObj) :
    (replaceImageIdsWithNames f obj).similarity
      = some (obj.similarity.getD ((obj.target.bind fun t => t.threshold).getD (9 / 10)))
  ∧ ((replaceImageIdsWithNames f obj).target.bind fun t => t.threshold) = none
  ∧ (replaceImageIdsWithNames f obj).rest = obj.rest
  ∧ ((replaceImageIdsWithNames f obj).target.map fun t => t.rest)
      = obj.target.map fun t => t.rest := by
  obtain ⟨h1i, h1t, h1s, h1r⟩ := replaceImageField_spec f obj
  obtain ⟨h2img, h2t, h2s, h2r⟩ := replaceImageIdField_spec f (replaceImageField f obj)
  obtain ⟨h3s, h3r, h3th, h3tr⟩ :=
    replaceTargetImageIdField_spec f (replaceImageIdField f (replaceImageField f obj))
  set g := replaceTargetImageIdField f (replaceImageIdField f (replaceImageField f obj)) with hg
  have hgs : g.similarity = obj.similarity := by rw [h3s, h2s, h1s]
  have hgth : (g.target.bind fun t => t.threshold) = obj.target.bind fun t => t.threshold := by
    rw [h3th, h2t, h1t]
  have hgr : g.rest = obj.rest := by rw [h3r, h2r, h1r]
  have hgtr : (g.target.map fun t => t.rest) = obj.target.map fun t => t.rest := by
    rw [h3tr, h2t, h1t]
  have hfix : replaceImageIdsWithNames f obj
      = removeTargetThreshold { g with similarity := some (finalSimilarity g) } := rfl
  obtain ⟨h4s, h4r, h4th, h4tr⟩ :=
    removeTargetThreshold_spec { g with similarity := some (finalSimilarity g) }
  refine ⟨?_, ?_, ?_, ?_⟩
  · rw [hfix, h4s]
    show some (finalSimilarity g) = _
    rw [finalSimilarity_spec g, hgs, hgth]
  · rw [hfix, h4th]
  · rw [hfix, h4r]
    show g.rest = obj.rest
    exact hgr
  · rw [hfix, h4tr]
    show (g.target.map fun t => t.rest) = obj.target.map fun t => t.rest
    exact hgtr

end QR
